import Mathlib

/-!
Verification of the playform voxel-world core (entity/physics/buffer subsystem).

The Rust sources under `src/` are shallowly embedded below:
* `GLfloat` values are modelled as exact rationals (`ℚ`);
* Rust `Option`-like enums (`Intersect`) become Lean `Option`;
* fatal conditions (`fail!` / `assert!`) become `Option` results (`none` =
  the process dies);
* the GPU-resident vertex arrays of `GLBuffer` are modelled as the list of
  vertices they logically hold, together with the fixed `capacity`.
-/

namespace Playform

/-- `cgmath::Vector3`, componentwise arithmetic as used by `main.rs`
(`v*stop`, `v*stop - v`, `+`). -/
structure Vector3 (α : Type) where
  x : α
  y : α
  z : α
deriving DecidableEq, Repr

instance [Add α] : Add (Vector3 α) where
  add a b := ⟨a.x + b.x, a.y + b.y, a.z + b.z⟩

instance [Sub α] : Sub (Vector3 α) where
  sub a b := ⟨a.x - b.x, a.y - b.y, a.z - b.z⟩

instance [Mul α] : Mul (Vector3 α) where
  mul a b := ⟨a.x * b.x, a.y * b.y, a.z * b.z⟩

/-- `Vector3::ident()` (used to initialize the slide vector in `intersect`). -/
def Vector3.ident : Vector3 ℚ := ⟨1, 1, 1⟩

/-- `color::Color4` record. -/
structure Color4 (α : Type) where
  r : α
  g : α
  b : α
  a : α
deriving DecidableEq, Repr

/-- `BlockType` enum (`main.rs:228-232`). -/
inductive BlockType where
  | Grass
  | Dirt
  | Stone
deriving DecidableEq, Repr

/-- `Block` (`main.rs:245-250`): an AABB given by its two corners plus a type. -/
structure Block where
  low_corner : Vector3 ℚ
  high_corner : Vector3 ℚ
  block_type : BlockType
deriving DecidableEq, Repr

/-- Per-axis classification `Intersect1` (`main.rs:257-261`).
The source constructor `Partial` is rendered `Partial1` here. -/
inductive Intersect1 where
  | Within
  | Partial1
  | NoIntersect1
deriving DecidableEq, Repr

/-- `intersect1` (`main.rs:265-273`): classify one axis of a pair of intervals.
`Within` is tested first, then `Partial`. -/
def intersect1 (x1l x1h x2l x2h : ℚ) : Intersect1 :=
  if x1l > x2l ∧ x1h ≤ x2h then .Within
  else if x1h > x2l ∧ x2h > x1l then .Partial1
  else .NoIntersect1

/-- `intersect` (`main.rs:264-298`).  The slide vector `v` starts at
`Vector3::ident()`; a `Partial` axis zeroes its component, a `Within` axis
leaves it at `1`; any `NoIntersect1` axis makes the result `NoIntersect`
(modelled as `none`). -/
def intersect (b1 b2 : Block) : Option (Vector3 ℚ) :=
  let cx := intersect1 b1.low_corner.x b1.high_corner.x b2.low_corner.x b2.high_corner.x
  let cy := intersect1 b1.low_corner.y b1.high_corner.y b2.low_corner.y b2.high_corner.y
  let cz := intersect1 b1.low_corner.z b1.high_corner.z b2.low_corner.z b2.high_corner.z
  let v : Vector3 ℚ :=
    ⟨if cx = .Partial1 then 0 else Vector3.ident.x,
     if cy = .Partial1 then 0 else Vector3.ident.y,
     if cz = .Partial1 then 0 else Vector3.ident.z⟩
  if cx = .NoIntersect1 ∨ cy = .NoIntersect1 ∨ cz = .NoIntersect1 then none
  else some v

/-- The spec's §4.1 "Contained" predicate for one axis:
`a.low > b.low && a.high <= b.high`. -/
def ContainedOn (al ah bl bh : ℚ) : Prop := bl < al ∧ ah ≤ bh

/-- The spec's §4.1 "Overlapping" predicate for one axis:
`a.high > b.low && b.high > a.low`, and not Contained. -/
def OverlappingOn (al ah bl bh : ℚ) : Prop :=
  bl < ah ∧ al < bh ∧ ¬ContainedOn al ah bl bh

/-- The spec's §4.1 "Disjoint" predicate for one axis: neither Contained nor
Overlapping. -/
def DisjointOn (al ah bl bh : ℚ) : Prop :=
  ¬ContainedOn al ah bl bh ∧ ¬(bl < ah ∧ al < bh)

instance (al ah bl bh : ℚ) : Decidable (ContainedOn al ah bl bh) := by
  unfold ContainedOn; infer_instance

instance (al ah bl bh : ℚ) : Decidable (OverlappingOn al ah bl bh) := by
  unfold OverlappingOn; infer_instance

instance (al ah bl bh : ℚ) : Decidable (DisjointOn al ah bl bh) := by
  unfold DisjointOn; infer_instance

/-- `TRIANGLES_PER_BLOCK` (`main.rs:42`). -/
def TRIANGLES_PER_BLOCK : ℕ := 12

/-- `LINES_PER_BLOCK` (`main.rs:43`). -/
def LINES_PER_BLOCK : ℕ := 12

/-- `VERTICES_PER_TRIANGLE` (`main.rs:44`). -/
def VERTICES_PER_TRIANGLE : ℕ := 3

/-- `VERTICES_PER_LINE` (`main.rs:45`). -/
def VERTICES_PER_LINE : ℕ := 2

/-- `TRIANGLE_VERTICES_PER_BLOCK` (`main.rs:46`): 36 vertices per block record. -/
def TRIANGLE_VERTICES_PER_BLOCK : ℕ := TRIANGLES_PER_BLOCK * VERTICES_PER_TRIANGLE

/-- `LINE_VERTICES_PER_BLOCK` (`main.rs:47`): 24 vertices per outline record. -/
def LINE_VERTICES_PER_BLOCK : ℕ := LINES_PER_BLOCK * VERTICES_PER_LINE

/-- `MAX_JUMP_FUEL` (`main.rs:49`). -/
def MAX_JUMP_FUEL : ℕ := 4

/-- Rendering vertex (`main.rs:53-56`): position and color. -/
structure Vertex where
  position : Vector3 ℚ
  color : Color4 ℚ
deriving DecidableEq, Repr

/-- `GLBuffer<T>` (`glw.rs:77-85`, `main.rs:97-102`): a fixed-capacity GPU
vertex array.  We model the vertex data it logically holds (its first
`length` elements) as a list, so `length = data.length`, together with the
immutable `capacity` fixed at construction. -/
structure GLBuffer (α : Type) where
  data : List α
  capacity : ℕ
deriving DecidableEq, Repr

/-- Core of `GLBuffer::swap_remove` (`glw.rs:164-188`) on the logical vertex
list: let `ip = i * span` and `len = length - span`; if `ip = len` (the removed
record is the last one) just shrink, else copy the `span` vertices starting at
offset `len` (the last record) over positions `[ip, ip + span)` and shrink.
(`main.rs:163-184` is an earlier version of the same function that performs the
copy unconditionally; on the retained prefix it has the same effect.) -/
def swapRemoveList (span i : ℕ) (l : List α) : List α :=
  let ip := i * span
  let len := l.length - span
  if ip = len then
    l.take len
  else
    l.take ip ++ l.drop len ++ (l.take len).drop (ip + span)

/-- `GLBuffer::swap_remove` (`glw.rs:164-188`): swap-remove the `span`-sized
record at slot `i`. -/
def GLBuffer.swap_remove (b : GLBuffer α) (span i : ℕ) : GLBuffer α :=
  { b with data := swapRemoveList span i b.data }

/-- `GLBuffer::push` (`glw.rs:192-211`): the assertion
`length + vs.len() <= capacity` must hold, otherwise the process dies
(modelled as `none`); on success the vertices are appended. -/
def GLBuffer.push (b : GLBuffer α) (vs : List α) : Option (GLBuffer α) :=
  if b.data.length + vs.length ≤ b.capacity then
    some { b with data := b.data ++ vs }
  else none

/-- `GLBuffer::push` of the earlier version (`main.rs:187-204`): it fails
(`fail!`, modelled as `none`) only when `length >= capacity` already holds
before the push; otherwise it appends unconditionally. -/
def GLBuffer.push_main (b : GLBuffer α) (vs : List α) : Option (GLBuffer α) :=
  if b.data.length ≥ b.capacity then none
  else some { b with data := b.data ++ vs }

/-- The `span`-sized record at slot `j` of a flat vertex list. -/
def recordAt (span j : ℕ) (l : List α) : List α :=
  (l.drop (j * span)).take span

/-- `Vec::swap_remove` (used on `world_data` in `main.rs:769`): replace the
element at `i` with the last element and pop the last element. -/
def vec_swap_remove (l : List α) (i : ℕ) : List α :=
  match l.getLast? with
  | none => []
  | some x => (l.set i x).dropLast

/-- The slice of the `App` state (`main.rs:384-420`) involved in
player-triggered block deletion: the authoritative block list and the three
parallel geometry buffers. -/
structure RenderState where
  world_data : List Block
  world_triangles : GLBuffer Vertex
  outlines : GLBuffer Vertex
  selection_triangles : GLBuffer Vertex
deriving DecidableEq, Repr

/-- The block-deletion branch of `App::update` (`main.rs:763-775`): given the
picked `block_index`, swap-remove the block from `world_data` and the
corresponding record from each of the three geometry buffers. -/
def delete_block (block_index : ℕ) (s : RenderState) : RenderState :=
  { world_data := vec_swap_remove s.world_data block_index
    world_triangles := s.world_triangles.swap_remove TRIANGLE_VERTICES_PER_BLOCK block_index
    outlines := s.outlines.swap_remove LINE_VERTICES_PER_BLOCK block_index
    selection_triangles := s.selection_triangles.swap_remove TRIANGLE_VERTICES_PER_BLOCK block_index }

/-- The physics slice of the `App` state (`main.rs:384-420`). -/
structure AppState where
  world_data : List Block
  camera_position : Vector3 ℚ
  camera_speed : Vector3 ℚ
  camera_accel : Vector3 ℚ
  jump_fuel : ℕ
  jumping : Bool
deriving DecidableEq, Repr

/-- `App::construct_player` (`main.rs:999-1003`): the player's AABB from its
high corner; the low corner is `high - (0.5, 2.0, 1.0)`. -/
def construct_player (high_corner : Vector3 ℚ) : Block :=
  { low_corner := high_corner - ⟨1/2, 2, 1⟩
    high_corner := high_corner
    block_type := .Stone }

/-- The collision query inside `App::translate` (`main.rs:1011-1023`):
`world_data.iter().any(...)` tests blocks in order and stops at the first one
whose `intersect` with the moved player is a hit; the closure records that
block's slide vector.  `findSome?` returns exactly that first hit. -/
def collisionResult (player : Block) (world : List Block) : Option (Vector3 ℚ) :=
  world.findSome? (fun block => intersect player block)

/-- `App::translate` (`main.rs:1006-1040`): move the player by `v`.
`d_camera_speed` is `v*stop - v` for the first colliding block (zero when no
block collides) and is always added to the speed.  On collision the position
is unchanged and a downward move refills `jump_fuel`; with no collision the
position advances by `v` and a downward move empties `jump_fuel`.
(The projection-matrix update of the source is render-only and not modelled.) -/
def translate (v : Vector3 ℚ) (s : AppState) : AppState :=
  let player := construct_player (s.camera_position + v)
  let res := collisionResult player s.world_data
  let d_camera_speed : Vector3 ℚ :=
    match res with
    | some stop => v * stop - v
    | none => ⟨0, 0, 0⟩
  let s1 := { s with camera_speed := s.camera_speed + d_camera_speed }
  match res with
  | some _ =>
    if v.y < 0 then { s1 with jump_fuel := MAX_JUMP_FUEL } else s1
  | none =>
    let s2 := { s1 with camera_position := s1.camera_position + v }
    if v.y < 0 then { s2 with jump_fuel := 0 } else s2

/-- The per-axis movement phase of `App::update` (`main.rs:746-755`): save
`dP = camera_speed`, then attempt the x, y and z components in that order as
independent `translate` calls, skipping zero components. -/
def update_movement (s : AppState) : AppState :=
  let dP := s.camera_speed
  let s1 := if dP.x ≠ 0 then translate ⟨dP.x, 0, 0⟩ s else s
  let s2 := if dP.y ≠ 0 then translate ⟨0, dP.y, 0⟩ s1 else s1
  if dP.z ≠ 0 then translate ⟨0, 0, dP.z⟩ s2 else s2

/-- The `Space` arm of `App::key_press` (`main.rs:504-510`): only when not
already jumping, set the flag and add the fixed `0.3` upward acceleration
impulse. -/
def key_press_space (s : AppState) : AppState :=
  if !s.jumping then
    { s with jumping := true
             camera_accel := ⟨s.camera_accel.x, s.camera_accel.y + 3/10, s.camera_accel.z⟩ }
  else s

/-- The `Space` arm of `App::key_release` (`main.rs:543-549`): only when
jumping, clear the flag and remove the `0.3` impulse. -/
def key_release_space (s : AppState) : AppState :=
  if s.jumping then
    { s with jumping := false
             camera_accel := ⟨s.camera_accel.x, s.camera_accel.y - 3/10, s.camera_accel.z⟩ }
  else s

/-- The jump-fuel phase of `App::update` (`main.rs:736-744`): while jumping,
burn one unit of fuel per tick; on exhaustion stop jumping and remove the
`0.3` impulse. -/
def update_jump (s : AppState) : AppState :=
  if s.jumping then
    if s.jump_fuel > 0 then { s with jump_fuel := s.jump_fuel - 1 }
    else
      { s with jumping := false
               camera_accel := ⟨s.camera_accel.x, s.camera_accel.y - 3/10, s.camera_accel.z⟩ }
  else s

/-- The three jump-related transitions of the source. -/
inductive JumpEvent where
  | press
  | release
  | tick
deriving DecidableEq, Repr

/-- Dispatch one jump-related transition. -/
def jump_step (e : JumpEvent) (s : AppState) : AppState :=
  match e with
  | .press => key_press_space s
  | .release => key_release_space s
  | .tick => update_jump s

/-- Run a sequence of jump-related transitions. -/
def jump_run (es : List JumpEvent) (s : AppState) : AppState :=
  es.foldl (fun s e => jump_step e s) s

/-- The vertical acceleration with the jump impulse (0.3, present exactly when
`jumping`) removed: the "base" acceleration owned by gravity and walk inputs. -/
def jumpBase (s : AppState) : ℚ :=
  s.camera_accel.y - (if s.jumping then 3/10 else 0)

/-- The camera's vertical-rotation state.  The source keeps no explicit
vertical-rotation scalar: `App::rotate_vertical` (`main.rs:1056-1059`) calls
`App::rotate` (`main.rs:1044-1047`), which composes `rotation_matrix` with a
rotation of `-r` about the right axis.  With `lateral_rotation` zero the right
axis is the fixed x-axis (`main.rs:1064-1066`), and rotations about a fixed
axis compose by adding their angles, so the rotation state is faithfully
tracked by the accumulated vertical angle. -/
structure RotationState where
  vertical_rotation : ℚ
deriving DecidableEq, Repr

/-- `App::rotate_vertical` (`main.rs:1056-1059`): unconditionally compose the
requested rotation; the source contains no range check, no clamp and no
discard, so the accumulated vertical angle always advances by `r`. -/
def rotate_vertical (r : ℚ) (s : RotationState) : RotationState :=
  { vertical_rotation := s.vertical_rotation + r }

/-- Modelled from the spec: `LOAD_SPEED`, the fixed per-tick batch size of the
incremental loader (§4.4, "e.g. 4096").  The incremental loader does not exist
in the source files under `src/` (that version materializes the whole world at
startup in `App::load`), so it is modelled from the spec's words. -/
def LOAD_SPEED : ℕ := 4096

/-- Modelled from the spec: the incremental loader's state (§4.4):
`next_load_id` is the next id to materialize, `next_block_id` one past the
last id allocated by world generation. -/
structure LoaderState where
  next_load_id : ℕ
  next_block_id : ℕ
deriving DecidableEq, Repr

/-- Modelled from the spec: the per-tick loading loop (§4.4), with `fuel`
counting how many blocks may still be processed this tick.  While
`next_load_id < next_block_id` and fewer than `LOAD_SPEED` blocks have been
processed, materialize the block at `next_load_id` (returned in order in the
second component) and advance `next_load_id`. -/
def load_tick_go : ℕ → LoaderState → LoaderState × List ℕ
  | 0, s => (s, [])
  | fuel + 1, s =>
    if s.next_load_id < s.next_block_id then
      let r := load_tick_go fuel { s with next_load_id := s.next_load_id + 1 }
      (r.1, s.next_load_id :: r.2)
    else (s, [])

/-- Modelled from the spec: one update tick of the incremental loader (§4.4),
returning the new state and the ids materialized this tick. -/
def load_tick (s : LoaderState) : LoaderState × List ℕ :=
  load_tick_go LOAD_SPEED s

/-- Fuel-based `u32::trailing_zeros`: 32 levels suffice for any `u32`. -/
def trailing_zeros_go : ℕ → ℕ → ℕ
  | 0, _ => 0
  | fuel + 1, m => if m % 2 = 1 then 0 else trailing_zeros_go fuel (m / 2) + 1

/-- `u32::trailing_zeros` as used by `mask` (`main.rs:805-807`); in particular
`trailing_zeros 0 = 32`. -/
def trailing_zeros (m : ℕ) : ℕ := trailing_zeros_go 32 m

/-- `mask` (`main.rs:805-807`): `(i & mask) >> mask.trailing_zeros()`. -/
def mask (m i : ℕ) : ℕ := (i &&& m) >>> trailing_zeros m

/-- `selection_color` (`main.rs:877-894`): asserts `i < 0xFF000000` (modelled
as `none` on failure), then encodes `i + 1` into the RGB channels, each mask
extraction divided by 255.  (`u32` arithmetic: `i + 1` cannot overflow under
the assertion.) -/
def selection_color (i : ℕ) : Option (Color4 ℚ) :=
  if i < 0xFF000000 then
    let j := i + 1
    some ⟨(mask 0x00FF0000 j : ℚ) / 255,
          (mask 0x0000FF00 j : ℚ) / 255,
          (mask 0x000000FF j : ℚ) / 255,
          1⟩
  else none

/-! ## Theorems -/

theorem intersect1_eq_within (al ah bl bh : ℚ) :
    intersect1 al ah bl bh = .Within ↔ ContainedOn al ah bl bh := by
  unfold intersect1 ContainedOn
  split_ifs with h1 h2 <;> simp_all [gt_iff_lt]

theorem intersect1_eq_partial (al ah bl bh : ℚ) :
    intersect1 al ah bl bh = .Partial1 ↔ OverlappingOn al ah bl bh := by
  unfold intersect1 OverlappingOn ContainedOn
  split_ifs with h1 h2 <;> simp_all [gt_iff_lt]

theorem intersect1_eq_nointersect (al ah bl bh : ℚ) :
    intersect1 al ah bl bh = .NoIntersect1 ↔ DisjointOn al ah bl bh := by
  unfold intersect1 DisjointOn ContainedOn
  split_ifs with h1 h2 <;> simp_all [gt_iff_lt]

/-- C1: `intersect(a, b)` returns `None` iff at least one axis is Disjoint
(neither Contained, `a.low > b.low && a.high <= b.high`, nor Overlapping,
`a.high > b.low && b.high > a.low`); otherwise it returns `Some(v)` where each
axis component of `v` is `0` if that axis is Overlapping and `1` if it is
Contained, and `v` is all-ones exactly when every axis is Contained. -/
theorem c1_intersect_spec (a b : Block) :
    (intersect a b = none ↔
      (DisjointOn a.low_corner.x a.high_corner.x b.low_corner.x b.high_corner.x ∨
       DisjointOn a.low_corner.y a.high_corner.y b.low_corner.y b.high_corner.y ∨
       DisjointOn a.low_corner.z a.high_corner.z b.low_corner.z b.high_corner.z)) ∧
    (∀ v, intersect a b = some v →
      (OverlappingOn a.low_corner.x a.high_corner.x b.low_corner.x b.high_corner.x → v.x = 0) ∧
      (ContainedOn a.low_corner.x a.high_corner.x b.low_corner.x b.high_corner.x → v.x = 1) ∧
      (OverlappingOn a.low_corner.y a.high_corner.y b.low_corner.y b.high_corner.y → v.y = 0) ∧
      (ContainedOn a.low_corner.y a.high_corner.y b.low_corner.y b.high_corner.y → v.y = 1) ∧
      (OverlappingOn a.low_corner.z a.high_corner.z b.low_corner.z b.high_corner.z → v.z = 0) ∧
      (ContainedOn a.low_corner.z a.high_corner.z b.low_corner.z b.high_corner.z → v.z = 1) ∧
      (v = Vector3.ident ↔
        (ContainedOn a.low_corner.x a.high_corner.x b.low_corner.x b.high_corner.x ∧
         ContainedOn a.low_corner.y a.high_corner.y b.low_corner.y b.high_corner.y ∧
         ContainedOn a.low_corner.z a.high_corner.z b.low_corner.z b.high_corner.z))) := by
  cases hx : intersect1 a.low_corner.x a.high_corner.x b.low_corner.x b.high_corner.x <;>
  cases hy : intersect1 a.low_corner.y a.high_corner.y b.low_corner.y b.high_corner.y <;>
  cases hz : intersect1 a.low_corner.z a.high_corner.z b.low_corner.z b.high_corner.z <;>
  simp_all [intersect, Vector3.ident, intersect1_eq_within, intersect1_eq_partial,
    intersect1_eq_nointersect, ContainedOn, OverlappingOn, DisjointOn, Vector3.mk.injEq]

/-- Witness for C1: a unit cube strictly inside a larger box is Contained
on every axis, so `intersect` returns the all-ones slide vector. -/
theorem c1_intersect_spec_witness :
    intersect ⟨⟨1, 1, 1⟩, ⟨2, 2, 2⟩, .Grass⟩ ⟨⟨0, 0, 0⟩, ⟨3, 3, 3⟩, .Dirt⟩ =
      some ⟨1, 1, 1⟩ ∧
    (⟨1, 1, 1⟩ : Vector3 ℚ) = Vector3.ident ∧
    ContainedOn (1 : ℚ) 2 0 3 := by
  refine ⟨by decide, ?_, by decide⟩
  exact ((c1_intersect_spec ⟨⟨1, 1, 1⟩, ⟨2, 2, 2⟩, .Grass⟩
      ⟨⟨0, 0, 0⟩, ⟨3, 3, 3⟩, .Dirt⟩).2 ⟨1, 1, 1⟩ (by decide)).2.2.2.2.2.2.mpr
    ⟨by decide, by decide, by decide⟩

theorem recordAt_take {α : Type} {span j len : ℕ} (l : List α)
    (h : j * span + span ≤ len) :
    recordAt span j (l.take len) = recordAt span j l := by
  unfold recordAt
  rw [List.drop_take, List.take_take, Nat.min_eq_left (by omega)]

theorem swapRemoveList_length {α : Type} {span i n : ℕ} {l : List α}
    (hspan : 0 < span) (hi : i < n) (hlen : l.length = n * span) :
    (swapRemoveList span i l).length = (n - 1) * span := by
  have hsub : (n - 1) * span = n * span - span := by
    rw [Nat.sub_mul, one_mul]
  have hspan_le : span ≤ n * span := Nat.le_mul_of_pos_left span (by omega)
  simp only [swapRemoveList]
  split_ifs with h
  · rw [List.length_take, hlen, hsub]
    omega
  · have hi1 : i + 1 ≤ n - 1 := by
      by_contra hc
      have hieq : i = n - 1 := by omega
      subst hieq
      rw [hlen, ← hsub] at h
      exact h rfl
    have hip : i * span + span ≤ n * span - span := by
      calc i * span + span = (i + 1) * span := by ring
        _ ≤ (n - 1) * span := Nat.mul_le_mul_right span hi1
        _ = n * span - span := hsub
    rw [List.length_append, List.length_append, List.length_take, List.length_drop,
        List.length_drop, List.length_take, hlen, hsub]
    omega

theorem swapRemoveList_spec {α : Type} {span i n : ℕ} {l : List α}
    (hspan : 0 < span) (hi : i < n) (hlen : l.length = n * span) :
    ((swapRemoveList span i l).length = (n - 1) * span) ∧
    (i = n - 1 →
      swapRemoveList span i l = l.take ((n - 1) * span) ∧
      ∀ j, j < n - 1 → recordAt span j (swapRemoveList span i l) = recordAt span j l) ∧
    (i < n - 1 →
      recordAt span i (swapRemoveList span i l) = recordAt span (n - 1) l ∧
      ∀ j, j < n - 1 → j ≠ i →
        recordAt span j (swapRemoveList span i l) = recordAt span j l) := by
  have hsub : (n - 1) * span = n * span - span := by
    rw [Nat.sub_mul, one_mul]
  have hspan_le : span ≤ n * span := Nat.le_mul_of_pos_left span (by omega)
  refine ⟨swapRemoveList_length hspan hi hlen, ?_, ?_⟩
  · -- removing the last slot: pure truncation
    intro hlast
    have hcond : i * span = l.length - span := by
      rw [hlast, hlen, hsub]
    have heq : swapRemoveList span i l = l.take ((n - 1) * span) := by
      simp only [swapRemoveList]
      rw [if_pos hcond, hlen, ← hsub]
    refine ⟨heq, fun j hj => ?_⟩
    rw [heq]
    exact recordAt_take l (by
      calc j * span + span = (j + 1) * span := by ring
        _ ≤ (n - 1) * span := Nat.mul_le_mul_right span (by omega))
  · -- removing an interior slot: the last record moves into slot i
    intro hmid
    have hip : i * span + span ≤ (n - 1) * span := by
      calc i * span + span = (i + 1) * span := by ring
        _ ≤ (n - 1) * span := Nat.mul_le_mul_right span (by omega)
    have hcond : i * span ≠ l.length - span := by
      rw [hlen, ← hsub]
      intro h
      have : i = n - 1 := Nat.eq_of_mul_eq_mul_right hspan (by omega)
      omega
    have heq : swapRemoveList span i l =
        l.take (i * span) ++ (l.drop (l.length - span) ++
          (l.take (l.length - span)).drop (i * span + span)) := by
      simp only [swapRemoveList]
      rw [if_neg hcond, List.append_assoc]
    have hlenA : (l.take (i * span)).length = i * span := by
      simp only [List.length_take, hlen]
      omega
    have hlenB : (l.drop (l.length - span)).length = span := by
      simp only [List.length_drop, hlen]
      omega
    have hlast_rec : recordAt span (n - 1) l = l.drop (l.length - span) := by
      unfold recordAt
      rw [hlen, ← hsub]
      exact List.take_of_length_le (by rw [List.length_drop, hlen, hsub]; omega)
    constructor
    · -- the record formerly at the last slot now occupies slot i
      rw [heq, hlast_rec]
      unfold recordAt
      rw [List.drop_left' hlenA, List.take_left' hlenB]
    · -- every other slot is unchanged
      intro j hj hji
      rcases Nat.lt_or_ge j i with hcase | hcase
      · -- j < i: inside the untouched prefix
        have hjle : j * span + span ≤ i * span := by
          calc j * span + span = (j + 1) * span := by ring
            _ ≤ i * span := Nat.mul_le_mul_right span (by omega)
        rw [heq]
        unfold recordAt
        rw [List.drop_append_of_le_length (by rw [hlenA]; omega),
            List.take_append_of_le_length (by rw [List.length_drop, hlenA]; omega),
            List.drop_take, List.take_take, Nat.min_eq_left (by omega)]
      · -- i < j: inside the untouched suffix
        have hij : i * span + span ≤ j * span := by
          calc i * span + span = (i + 1) * span := by ring
            _ ≤ j * span := Nat.mul_le_mul_right span (by omega)
        have hjlen : j * span + span ≤ (n - 1) * span := by
          calc j * span + span = (j + 1) * span := by ring
            _ ≤ (n - 1) * span := Nat.mul_le_mul_right span (by omega)
        rw [heq]
        unfold recordAt
        rw [← List.append_assoc, List.drop_append_eq_append_drop,
            List.drop_eq_nil_of_le (by
              rw [List.length_append, hlenA, hlenB]; omega),
            List.nil_append, List.length_append, hlenA, hlenB,
            List.drop_drop, Nat.add_sub_cancel' hij, List.drop_take, List.take_take,
            Nat.min_eq_left (by rw [hlen]; omega)]

/-- C2: swap-removing the record span at a valid slot `i` of a buffer holding
`n ≥ 1` fixed-size records decreases the length by exactly one span; if `i` is
the last slot the remaining records are unchanged (pure truncation); otherwise
the record formerly at the last slot now occupies slot `i`, every other slot
is unchanged, and the buffer stays dense (its length is exactly `(n-1)` whole
spans). -/
theorem c2_swap_remove_spec {α : Type} (b : GLBuffer α) (span i n : ℕ)
    (hspan : 0 < span) (_hn : 1 ≤ n) (hi : i < n) (hlen : b.data.length = n * span) :
    ((b.swap_remove span i).data.length = (n - 1) * span) ∧
    (i = n - 1 → ∀ j, j < n - 1 →
      recordAt span j (b.swap_remove span i).data = recordAt span j b.data) ∧
    (i < n - 1 →
      recordAt span i (b.swap_remove span i).data = recordAt span (n - 1) b.data ∧
      ∀ j, j < n - 1 → j ≠ i →
        recordAt span j (b.swap_remove span i).data = recordAt span j b.data) := by
  obtain ⟨h1, h2, h3⟩ := swapRemoveList_spec (l := b.data) hspan hi hlen
  exact ⟨h1, fun hlast => (h2 hlast).2, h3⟩

/-- Witness for C2: swap-removing slot 0 of a 3-record buffer (span 2) moves
the last record into slot 0 and leaves slot 1 unchanged. -/
theorem c2_swap_remove_spec_witness :
    ((GLBuffer.swap_remove ⟨[10, 11, 20, 21, 30, 31], 6⟩ 2 0).data.length = 2 * 2) ∧
    recordAt 2 0 (GLBuffer.swap_remove (⟨[10, 11, 20, 21, 30, 31], 6⟩ : GLBuffer ℕ) 2 0).data =
      recordAt 2 2 [10, 11, 20, 21, 30, 31] ∧
    recordAt 2 1 (GLBuffer.swap_remove (⟨[10, 11, 20, 21, 30, 31], 6⟩ : GLBuffer ℕ) 2 0).data =
      recordAt 2 1 [10, 11, 20, 21, 30, 31] := by
  obtain ⟨h1, _, h3⟩ :=
    c2_swap_remove_spec (⟨[10, 11, 20, 21, 30, 31], 6⟩ : GLBuffer ℕ) 2 0 3
      (by decide) (by decide) (by decide) (by decide)
  obtain ⟨h4, h5⟩ := h3 (by decide)
  exact ⟨h1, h4, h5 1 (by decide) (by decide)⟩

theorem vec_swap_remove_length {α : Type} (l : List α) (hne : l ≠ []) :
    (vec_swap_remove l i).length = l.length - 1 := by
  unfold vec_swap_remove
  match h : l.getLast? with
  | none => exact absurd (List.getLast?_eq_none_iff.mp h) hne
  | some x => simp

/-- C3: after a player-triggered block deletion at a valid slot, the
world-triangle, outline and selection-triangle buffers each hold exactly one
fixed-size record per live block: their lengths in blocks are identical and
equal the updated `world_data` count `n - 1`. -/
theorem c3_delete_block_sync (s : RenderState) (idx n : ℕ)
    (hn : s.world_data.length = n)
    (hidx : idx < n)
    (hwt : s.world_triangles.data.length = n * TRIANGLE_VERTICES_PER_BLOCK)
    (hol : s.outlines.data.length = n * LINE_VERTICES_PER_BLOCK)
    (hst : s.selection_triangles.data.length = n * TRIANGLE_VERTICES_PER_BLOCK) :
    (delete_block idx s).world_data.length = n - 1 ∧
    (delete_block idx s).world_triangles.data.length =
      (n - 1) * TRIANGLE_VERTICES_PER_BLOCK ∧
    (delete_block idx s).outlines.data.length = (n - 1) * LINE_VERTICES_PER_BLOCK ∧
    (delete_block idx s).selection_triangles.data.length =
      (n - 1) * TRIANGLE_VERTICES_PER_BLOCK := by
  have hne : s.world_data ≠ [] := by
    intro h
    rw [h] at hn
    simp at hn
    omega
  refine ⟨?_, ?_, ?_, ?_⟩
  · rw [delete_block, vec_swap_remove_length s.world_data hne, hn]
  · exact swapRemoveList_length (by decide) hidx hwt
  · exact swapRemoveList_length (by decide) hidx hol
  · exact swapRemoveList_length (by decide) hidx hst

/-- Witness for C3: deleting slot 0 of a two-block world leaves one block and
one record per buffer. -/
theorem c3_delete_block_sync_witness :
    (delete_block 0 ⟨[⟨⟨0, 0, 0⟩, ⟨1, 1, 1⟩, .Grass⟩, ⟨⟨5, 5, 5⟩, ⟨6, 6, 6⟩, .Dirt⟩],
        ⟨List.replicate 72 ⟨⟨0, 0, 0⟩, ⟨0, 0, 0, 1⟩⟩, 72⟩,
        ⟨List.replicate 48 ⟨⟨0, 0, 0⟩, ⟨0, 0, 0, 1⟩⟩, 48⟩,
        ⟨List.replicate 72 ⟨⟨0, 0, 0⟩, ⟨0, 0, 0, 1⟩⟩, 72⟩⟩).world_data.length = 1 ∧
    (delete_block 0 ⟨[⟨⟨0, 0, 0⟩, ⟨1, 1, 1⟩, .Grass⟩, ⟨⟨5, 5, 5⟩, ⟨6, 6, 6⟩, .Dirt⟩],
        ⟨List.replicate 72 ⟨⟨0, 0, 0⟩, ⟨0, 0, 0, 1⟩⟩, 72⟩,
        ⟨List.replicate 48 ⟨⟨0, 0, 0⟩, ⟨0, 0, 0, 1⟩⟩, 48⟩,
        ⟨List.replicate 72 ⟨⟨0, 0, 0⟩, ⟨0, 0, 0, 1⟩⟩, 72⟩⟩).world_triangles.data.length =
      1 * TRIANGLE_VERTICES_PER_BLOCK := by
  obtain ⟨h1, h2, _, _⟩ :=
    c3_delete_block_sync
      ⟨[⟨⟨0, 0, 0⟩, ⟨1, 1, 1⟩, .Grass⟩, ⟨⟨5, 5, 5⟩, ⟨6, 6, 6⟩, .Dirt⟩],
        ⟨List.replicate 72 ⟨⟨0, 0, 0⟩, ⟨0, 0, 0, 1⟩⟩, 72⟩,
        ⟨List.replicate 48 ⟨⟨0, 0, 0⟩, ⟨0, 0, 0, 1⟩⟩, 48⟩,
        ⟨List.replicate 72 ⟨⟨0, 0, 0⟩, ⟨0, 0, 0, 1⟩⟩, 72⟩⟩ 0 2
      (by decide) (by decide) (by decide) (by decide) (by decide)
  exact ⟨h1, h2⟩

/-- C7 (failing input): the `glw.rs` version of `GLBuffer::push` enforces
`length + vs.len() <= capacity`, so the pushed buffer can never exceed its
capacity; but the earlier `main.rs` version only checks `length >= capacity`
before the push, so pushing a 36-vertex record into a 36-capacity buffer
already holding 35 vertices succeeds and leaves 71 > 36 vertices stored. -/
theorem c7_push_capacity_bug :
    GLBuffer.push_main (⟨List.replicate 35 (), 36⟩ : GLBuffer Unit) (List.replicate 36 ()) =
      some ⟨List.replicate 71 (), 36⟩ ∧
    ((⟨List.replicate 71 (), 36⟩ : GLBuffer Unit).data.length > 36) ∧
    GLBuffer.push (⟨List.replicate 35 (), 36⟩ : GLBuffer Unit) (List.replicate 36 ()) =
      none := by
  refine ⟨by decide, by decide, by decide⟩

theorem Vector3.add_def (a b : Vector3 ℚ) :
    a + b = ⟨a.x + b.x, a.y + b.y, a.z + b.z⟩ := rfl

theorem Vector3.sub_def (a b : Vector3 ℚ) :
    a - b = ⟨a.x - b.x, a.y - b.y, a.z - b.z⟩ := rfl

theorem Vector3.mul_def (a b : Vector3 ℚ) :
    a * b = ⟨a.x * b.x, a.y * b.y, a.z * b.z⟩ := rfl

theorem translate_general (s : AppState) (v : Vector3 ℚ) :
    (collisionResult (construct_player (s.camera_position + v)) s.world_data = none →
      (translate v s).camera_position = s.camera_position + v ∧
      (translate v s).camera_speed = s.camera_speed) ∧
    (∀ stop,
      collisionResult (construct_player (s.camera_position + v)) s.world_data = some stop →
      (translate v s).camera_position = s.camera_position ∧
      (translate v s).camera_speed = s.camera_speed + (v * stop - v)) := by
  constructor
  · intro h
    simp only [translate, h]
    constructor
    · split_ifs <;> rfl
    · split_ifs <;>
      · show s.camera_speed + ⟨0, 0, 0⟩ = s.camera_speed
        rw [Vector3.add_def]
        norm_num
  · intro stop h
    simp only [translate, h]
    constructor <;> split_ifs <;> rfl

/-- C4 (amended): each update tick attempts translation one axis at a time in
the order x, y, z (`update_movement`), each axis as an independent collision
query; for the single-axis move built from the current speed component: on a
collision the position is unchanged, the moved component of the speed becomes
`speed * stop` on that axis (so it is zeroed exactly when the slide vector
marks the moved axis Overlapping and kept when it marks it Contained), and the
speed components on the other two axes are unchanged; with no collision the
position advances by exactly the move and the speed is not altered. -/
theorem c4_translate_per_axis (s : AppState) :
    ((collisionResult (construct_player (s.camera_position + ⟨s.camera_speed.x, 0, 0⟩))
        s.world_data = none →
      (translate ⟨s.camera_speed.x, 0, 0⟩ s).camera_position =
        s.camera_position + ⟨s.camera_speed.x, 0, 0⟩ ∧
      (translate ⟨s.camera_speed.x, 0, 0⟩ s).camera_speed = s.camera_speed) ∧
     (∀ stop,
      collisionResult (construct_player (s.camera_position + ⟨s.camera_speed.x, 0, 0⟩))
        s.world_data = some stop →
      (translate ⟨s.camera_speed.x, 0, 0⟩ s).camera_position = s.camera_position ∧
      (translate ⟨s.camera_speed.x, 0, 0⟩ s).camera_speed =
        ⟨s.camera_speed.x * stop.x, s.camera_speed.y, s.camera_speed.z⟩)) ∧
    ((collisionResult (construct_player (s.camera_position + ⟨0, s.camera_speed.y, 0⟩))
        s.world_data = none →
      (translate ⟨0, s.camera_speed.y, 0⟩ s).camera_position =
        s.camera_position + ⟨0, s.camera_speed.y, 0⟩ ∧
      (translate ⟨0, s.camera_speed.y, 0⟩ s).camera_speed = s.camera_speed) ∧
     (∀ stop,
      collisionResult (construct_player (s.camera_position + ⟨0, s.camera_speed.y, 0⟩))
        s.world_data = some stop →
      (translate ⟨0, s.camera_speed.y, 0⟩ s).camera_position = s.camera_position ∧
      (translate ⟨0, s.camera_speed.y, 0⟩ s).camera_speed =
        ⟨s.camera_speed.x, s.camera_speed.y * stop.y, s.camera_speed.z⟩)) ∧
    ((collisionResult (construct_player (s.camera_position + ⟨0, 0, s.camera_speed.z⟩))
        s.world_data = none →
      (translate ⟨0, 0, s.camera_speed.z⟩ s).camera_position =
        s.camera_position + ⟨0, 0, s.camera_speed.z⟩ ∧
      (translate ⟨0, 0, s.camera_speed.z⟩ s).camera_speed = s.camera_speed) ∧
     (∀ stop,
      collisionResult (construct_player (s.camera_position + ⟨0, 0, s.camera_speed.z⟩))
        s.world_data = some stop →
      (translate ⟨0, 0, s.camera_speed.z⟩ s).camera_position = s.camera_position ∧
      (translate ⟨0, 0, s.camera_speed.z⟩ s).camera_speed =
        ⟨s.camera_speed.x, s.camera_speed.y, s.camera_speed.z * stop.z⟩)) := by
  refine ⟨⟨(translate_general s _).1, fun stop h => ?_⟩,
          ⟨(translate_general s _).1, fun stop h => ?_⟩,
          ⟨(translate_general s _).1, fun stop h => ?_⟩⟩ <;>
  · obtain ⟨hp, hv⟩ := (translate_general s _).2 stop h
    refine ⟨hp, ?_⟩
    rw [hv, Vector3.mul_def, Vector3.sub_def, Vector3.add_def]
    simp only [Vector3.mk.injEq]
    refine ⟨by ring, by ring, by ring⟩

theorem collisionResult_wall_example :
    collisionResult (construct_player ((⟨0, 0, 0⟩ : Vector3 ℚ) + ⟨1/2, 0, 0⟩))
      [⟨⟨-1, -1, -2⟩, ⟨1, 5, 1⟩, .Grass⟩] = some ⟨1, 0, 1⟩ := by
  unfold collisionResult construct_player
  rw [Vector3.add_def, Vector3.sub_def]
  norm_num [List.findSome?, intersect, intersect1]
  decide

/-- Counterexample for C4: in the single-axis x-move `v = (1/2, 0, 0)` (with
`1/2` the current x-speed), the first colliding block returns the slide vector
`(1, 0, 1)`, which marks the y axis Overlapping (component 0); the claim then
demands the y speed component be zeroed, but the code computes
`speed + (v*stop - v)`, which cannot change the y component of a pure x-move:
the y speed stays `2 ≠ 0`. -/
theorem c4_translate_counterexample :
    collisionResult (construct_player ((⟨0, 0, 0⟩ : Vector3 ℚ) + ⟨1/2, 0, 0⟩))
      [⟨⟨-1, -1, -2⟩, ⟨1, 5, 1⟩, .Grass⟩] = some ⟨1, 0, 1⟩ ∧
    (translate ⟨1/2, 0, 0⟩
      ⟨[⟨⟨-1, -1, -2⟩, ⟨1, 5, 1⟩, .Grass⟩], ⟨0, 0, 0⟩, ⟨1/2, 2, 0⟩, ⟨0, 0, 0⟩, 0,
        false⟩).camera_speed.y = 2 ∧
    (2 : ℚ) ≠ 0 := by
  refine ⟨collisionResult_wall_example, ?_, by norm_num⟩
  have := (translate_general
    ⟨[⟨⟨-1, -1, -2⟩, ⟨1, 5, 1⟩, .Grass⟩], ⟨0, 0, 0⟩, ⟨1/2, 2, 0⟩, ⟨0, 0, 0⟩, 0, false⟩
    ⟨1/2, 0, 0⟩).2 ⟨1, 0, 1⟩ collisionResult_wall_example
  rw [this.2, Vector3.mul_def, Vector3.sub_def, Vector3.add_def]
  norm_num

/-- Witness for C4 (amended): the x-axis collision at a concrete state leaves
the position unchanged and the speed equal to
`(speed.x * stop.x, speed.y, speed.z)`. -/
theorem c4_translate_per_axis_witness :
    (translate ⟨1/2, 0, 0⟩
      (⟨[⟨⟨-1, -1, -2⟩, ⟨1, 5, 1⟩, .Grass⟩], ⟨0, 0, 0⟩, ⟨1/2, 2, 0⟩, ⟨0, 0, 0⟩, 0,
        false⟩ : AppState)).camera_position = ⟨0, 0, 0⟩ ∧
    (translate ⟨1/2, 0, 0⟩
      (⟨[⟨⟨-1, -1, -2⟩, ⟨1, 5, 1⟩, .Grass⟩], ⟨0, 0, 0⟩, ⟨1/2, 2, 0⟩, ⟨0, 0, 0⟩, 0,
        false⟩ : AppState)).camera_speed = ⟨1/2 * 1, 2, 0⟩ :=
  ((c4_translate_per_axis
    ⟨[⟨⟨-1, -1, -2⟩, ⟨1, 5, 1⟩, .Grass⟩], ⟨0, 0, 0⟩, ⟨1/2, 2, 0⟩, ⟨0, 0, 0⟩, 0,
      false⟩).1).2 ⟨1, 0, 1⟩ collisionResult_wall_example

theorem intersect_ground_example :
    intersect (construct_player ((⟨1/4, 2, 1⟩ : Vector3 ℚ) + ⟨0, -1/10, 0⟩))
      ⟨⟨-1, -1, -1⟩, ⟨1, 0, 2⟩, .Grass⟩ = some ⟨1, 0, 1⟩ := by
  unfold construct_player
  rw [Vector3.add_def, Vector3.sub_def]
  norm_num [intersect, intersect1]
  decide

theorem collisionResult_ground_example :
    collisionResult (construct_player ((⟨1/4, 2, 1⟩ : Vector3 ℚ) + ⟨0, -1/10, 0⟩))
      [⟨⟨-1, -1, -1⟩, ⟨1, 0, 2⟩, .Grass⟩] = some ⟨1, 0, 1⟩ := by
  unfold collisionResult
  simp only [List.findSome?_cons, intersect_ground_example]

/-- C5: after a translation attempt `v` with `v.y < 0`, `jump_fuel` is
`MAX_JUMP_FUEL = 4` if some block collided and `0` if none did; an attempt
with `v.y ≥ 0` leaves `jump_fuel` unchanged.  In the §8 Scenario B
configuration (player bounds `([-1/4,0,0],[1/4,2,1])` after the move
`v = (0,-1/10,0)`, ground block below), the collision's slide vector marks the
y axis, `jump_fuel` becomes 4 and the vertical speed component becomes 0. -/
theorem c5_jump_fuel_spec (s : AppState) (v : Vector3 ℚ) :
    (v.y < 0 →
      (∀ stop,
        collisionResult (construct_player (s.camera_position + v)) s.world_data = some stop →
        (translate v s).jump_fuel = MAX_JUMP_FUEL) ∧
      (collisionResult (construct_player (s.camera_position + v)) s.world_data = none →
        (translate v s).jump_fuel = 0)) ∧
    (0 ≤ v.y → (translate v s).jump_fuel = s.jump_fuel) ∧
    (intersect (construct_player ((⟨1/4, 2, 1⟩ : Vector3 ℚ) + ⟨0, -1/10, 0⟩))
        ⟨⟨-1, -1, -1⟩, ⟨1, 0, 2⟩, .Grass⟩ = some ⟨1, 0, 1⟩ ∧
      (translate ⟨0, -1/10, 0⟩
        ⟨[⟨⟨-1, -1, -1⟩, ⟨1, 0, 2⟩, .Grass⟩], ⟨1/4, 2, 1⟩, ⟨0, -1/10, 0⟩, ⟨0, -1/10, 0⟩,
          0, false⟩).jump_fuel = MAX_JUMP_FUEL ∧
      (translate ⟨0, -1/10, 0⟩
        ⟨[⟨⟨-1, -1, -1⟩, ⟨1, 0, 2⟩, .Grass⟩], ⟨1/4, 2, 1⟩, ⟨0, -1/10, 0⟩, ⟨0, -1/10, 0⟩,
          0, false⟩).camera_speed.y = 0) := by
  refine ⟨fun hv => ⟨fun stop h => ?_, fun h => ?_⟩, fun hv => ?_, ?_, ?_, ?_⟩
  · simp only [translate, h]
    rw [if_pos hv]
  · simp only [translate, h]
    rw [if_pos hv]
  · cases h : collisionResult (construct_player (s.camera_position + v)) s.world_data <;>
      simp only [translate, h] <;> rw [if_neg (not_lt.mpr hv)]
  · exact intersect_ground_example
  · simp only [translate, collisionResult_ground_example]
    rw [if_pos (by norm_num : ((⟨0, -1/10, 0⟩ : Vector3 ℚ).y < 0))]
  · simp only [translate, collisionResult_ground_example]
    rw [if_pos (by norm_num : ((⟨0, -1/10, 0⟩ : Vector3 ℚ).y < 0))]
    show ((⟨0, -1/10, 0⟩ : Vector3 ℚ) + (⟨0, -1/10, 0⟩ * ⟨1, 0, 1⟩ - ⟨0, -1/10, 0⟩)).y = 0
    rw [Vector3.mul_def, Vector3.sub_def, Vector3.add_def]
    norm_num

/-- Witness for C5: in the Scenario B state the downward attempt collides and
refills the fuel to `MAX_JUMP_FUEL`. -/
theorem c5_jump_fuel_spec_witness :
    ((⟨0, -1/10, 0⟩ : Vector3 ℚ).y < 0) ∧
    (translate ⟨0, -1/10, 0⟩
      ⟨[⟨⟨-1, -1, -1⟩, ⟨1, 0, 2⟩, .Grass⟩], ⟨1/4, 2, 1⟩, ⟨0, -1/10, 0⟩, ⟨0, -1/10, 0⟩,
        0, false⟩).jump_fuel = MAX_JUMP_FUEL :=
  ⟨by norm_num,
   ((c5_jump_fuel_spec
      ⟨[⟨⟨-1, -1, -1⟩, ⟨1, 0, 2⟩, .Grass⟩], ⟨1/4, 2, 1⟩, ⟨0, -1/10, 0⟩, ⟨0, -1/10, 0⟩,
        0, false⟩ ⟨0, -1/10, 0⟩).1 (by norm_num)).1 ⟨1, 0, 1⟩
     collisionResult_ground_example⟩

/-- Counterexample for C6: the source's `rotate_vertical` contains no clamp:
at vertical rotation 89° (inside the open interval (−90°, 90°)) a request of
+5° would land at 94°, outside the interval, so the claim demands the state be
unchanged — but the code applies the rotation and the state changes. -/
theorem c6_rotate_vertical_counterexample :
    ((-90 : ℚ) < 89 ∧ (89 : ℚ) < 90) ∧
    ¬((-90 : ℚ) < 89 + 5 ∧ (89 : ℚ) + 5 < 90) ∧
    rotate_vertical 5 ⟨89⟩ = ⟨94⟩ ∧
    rotate_vertical 5 ⟨89⟩ ≠ ⟨89⟩ := by
  refine ⟨⟨by norm_num, by norm_num⟩, by norm_num, ?_, ?_⟩
  · unfold rotate_vertical
    norm_num
  · unfold rotate_vertical
    intro h
    rw [RotationState.mk.injEq] at h
    norm_num at h

/-- C6 (amended): `rotate_vertical` applies every request unconditionally: the
vertical rotation state always advances by exactly the requested angle, and
any nonzero request changes the state — nothing is discarded and no clamping
occurs. -/
theorem c6_rotate_vertical_unclamped (s : RotationState) (r : ℚ) :
    (rotate_vertical r s).vertical_rotation = s.vertical_rotation + r ∧
    (r ≠ 0 → rotate_vertical r s ≠ s) := by
  refine ⟨rfl, fun hr heq => hr ?_⟩
  have h := congrArg RotationState.vertical_rotation heq
  simp only [rotate_vertical] at h
  linarith

/-- Witness for C6 (amended): the 89° + 5° request advances the state. -/
theorem c6_rotate_vertical_unclamped_witness :
    (rotate_vertical 5 ⟨89⟩).vertical_rotation = 89 + 5 ∧ rotate_vertical 5 ⟨89⟩ ≠ ⟨89⟩ :=
  ⟨(c6_rotate_vertical_unclamped ⟨89⟩ 5).1,
   (c6_rotate_vertical_unclamped ⟨89⟩ 5).2 (by norm_num)⟩

theorem load_tick_go_spec (k : ℕ) (s : LoaderState) :
    (load_tick_go k s).1.next_load_id =
      s.next_load_id + min k (s.next_block_id - s.next_load_id) ∧
    (load_tick_go k s).1.next_block_id = s.next_block_id ∧
    (load_tick_go k s).2 =
      List.range' s.next_load_id (min k (s.next_block_id - s.next_load_id)) := by
  induction k generalizing s with
  | zero => simp [load_tick_go]
  | succ k ih =>
    by_cases h : s.next_load_id < s.next_block_id
    · obtain ⟨ih1, ih2, ih3⟩ := ih { s with next_load_id := s.next_load_id + 1 }
      have hmin : min (k + 1) (s.next_block_id - s.next_load_id) =
          min k (s.next_block_id - (s.next_load_id + 1)) + 1 := by
        omega
      refine ⟨?_, ?_, ?_⟩
      · simp only [load_tick_go, if_pos h, ih1, hmin]
        omega
      · simp only [load_tick_go, if_pos h, ih2]
      · simp only [load_tick_go, if_pos h, ih3, hmin, List.range'_succ]
    · have hmin : min (k + 1) (s.next_block_id - s.next_load_id) = 0 := by omega
      simp [load_tick_go, if_neg h, hmin]

/-- C8: one update tick of the incremental loader advances `next_load_id` by
exactly `min(LOAD_SPEED, next_block_id - next_load_id)`, materializes exactly
the blocks with ids `next_load_id, next_load_id+1, ...` in strict id order,
leaves `next_block_id` unchanged, and `next_load_id` never exceeds
`next_block_id`. -/
theorem c8_loader_spec (s : LoaderState) :
    (load_tick s).1.next_load_id =
      s.next_load_id + min LOAD_SPEED (s.next_block_id - s.next_load_id) ∧
    (load_tick s).1.next_block_id = s.next_block_id ∧
    (load_tick s).2 =
      List.range' s.next_load_id (min LOAD_SPEED (s.next_block_id - s.next_load_id)) ∧
    (s.next_load_id ≤ s.next_block_id → (load_tick s).1.next_load_id ≤ s.next_block_id) := by
  obtain ⟨h1, h2, h3⟩ := load_tick_go_spec LOAD_SPEED s
  exact ⟨h1, h2, h3, fun hle => by unfold load_tick; rw [h1]; omega⟩

/-- Witness for C8: with 2 pending blocks the loader stops exactly at
`next_block_id`. -/
theorem c8_loader_spec_witness :
    (10 : ℕ) ≤ 12 ∧ (load_tick ⟨10, 12⟩).1.next_load_id ≤ 12 :=
  ⟨by decide, (c8_loader_spec ⟨10, 12⟩).2.2.2 (by decide)⟩

/-- C10: a jump-start input while already jumping changes no state, and a
jump-stop input while not jumping changes no state; consequently the fixed 0.3
upward impulse is added at most once per jump and removed exactly once (on
release or on fuel exhaustion): the base acceleration
`camera_accel.y - (0.3 if jumping else 0)` is invariant under every
jump-related transition and every sequence of them, so `camera_accel.y`
includes the impulse exactly when `jumping` is true. -/
theorem c10_jump_impulse :
    (∀ s : AppState, s.jumping = true → key_press_space s = s) ∧
    (∀ s : AppState, s.jumping = false → key_release_space s = s) ∧
    (∀ (e : JumpEvent) (s : AppState), jumpBase (jump_step e s) = jumpBase s) ∧
    (∀ (es : List JumpEvent) (s : AppState), jumpBase (jump_run es s) = jumpBase s) ∧
    (∀ s : AppState,
      s.camera_accel.y = jumpBase s + (if s.jumping = true then 3/10 else 0)) := by
  have hstep : ∀ (e : JumpEvent) (s : AppState), jumpBase (jump_step e s) = jumpBase s := by
    intro e s
    cases e <;> cases hj : s.jumping <;>
      simp only [jump_step, key_press_space, key_release_space, update_jump, jumpBase, hj] <;>
      split_ifs <;> simp_all
  refine ⟨?_, ?_, hstep, ?_, ?_⟩
  · intro s hj
    simp [key_press_space, hj]
  · intro s hj
    simp [key_release_space, hj]
  · intro es
    induction es with
    | nil => intro s; rfl
    | cons e es ih =>
      intro s
      show jumpBase (jump_run es (jump_step e s)) = jumpBase s
      rw [ih (jump_step e s), hstep e s]
  · intro s
    cases hj : s.jumping <;> simp [jumpBase, hj]

/-- Witness for C10: a second jump press while airborne is a no-op, and a
press/tick/release cycle restores the base acceleration. -/
theorem c10_jump_impulse_witness :
    key_press_space ⟨[], ⟨0, 0, 0⟩, ⟨0, 0, 0⟩, ⟨0, 2/10, 0⟩, 4, true⟩ =
      ⟨[], ⟨0, 0, 0⟩, ⟨0, 0, 0⟩, ⟨0, 2/10, 0⟩, 4, true⟩ ∧
    jumpBase (jump_run [.press, .tick, .release]
        ⟨[], ⟨0, 0, 0⟩, ⟨0, 0, 0⟩, ⟨0, -1/10, 0⟩, 0, false⟩) =
      jumpBase ⟨[], ⟨0, 0, 0⟩, ⟨0, 0, 0⟩, ⟨0, -1/10, 0⟩, 0, false⟩ :=
  ⟨c10_jump_impulse.1 ⟨[], ⟨0, 0, 0⟩, ⟨0, 0, 0⟩, ⟨0, 2/10, 0⟩, 4, true⟩ rfl,
   c10_jump_impulse.2.2.2.1 [.press, .tick, .release]
     ⟨[], ⟨0, 0, 0⟩, ⟨0, 0, 0⟩, ⟨0, -1/10, 0⟩, 0, false⟩⟩

theorem and_shiftLeft_shiftRight (n m k : ℕ) :
    (n &&& (m <<< k)) >>> k = (n >>> k) &&& m := by
  apply Nat.eq_of_testBit_eq
  intro j
  simp only [Nat.testBit_shiftRight, Nat.testBit_and, Nat.testBit_shiftLeft,
    Nat.add_sub_cancel_left]
  simp [Nat.le_add_right]

theorem mask_red (n : ℕ) : mask 0x00FF0000 n = n / 65536 % 256 := by
  have ht : trailing_zeros 0x00FF0000 = 16 := by decide
  have hm : (0x00FF0000 : ℕ) = 0xFF <<< 16 := by decide
  unfold mask
  rw [ht, hm, and_shiftLeft_shiftRight, Nat.shiftRight_eq_div_pow,
    (by norm_num : (0xFF : ℕ) = 2 ^ 8 - 1), Nat.and_pow_two_sub_one_eq_mod]

theorem mask_green (n : ℕ) : mask 0x0000FF00 n = n / 256 % 256 := by
  have ht : trailing_zeros 0x0000FF00 = 8 := by decide
  have hm : (0x0000FF00 : ℕ) = 0xFF <<< 8 := by decide
  unfold mask
  rw [ht, hm, and_shiftLeft_shiftRight, Nat.shiftRight_eq_div_pow,
    (by norm_num : (0xFF : ℕ) = 2 ^ 8 - 1), Nat.and_pow_two_sub_one_eq_mod]

theorem mask_blue (n : ℕ) : mask 0x000000FF n = n % 256 := by
  have ht : trailing_zeros 0x000000FF = 0 := by decide
  unfold mask
  rw [ht, Nat.shiftRight_zero,
    (by norm_num : (0x000000FF : ℕ) = 2 ^ 8 - 1), Nat.and_pow_two_sub_one_eq_mod]

/-- Counterexample for C9: `selection_color` is not injective on all ids below
the asserted bound `0xFF000000`: the distinct ids `0xFFFFFF` and `0x1FFFFFF`
are both below the bound, and both encode to the color (0, 0, 0) because only
the low 24 bits of `id + 1` reach the three 8-bit channels. -/
theorem c9_selection_color_counterexample :
    selection_color 0xFFFFFF = selection_color 0x1FFFFFF ∧
    (0xFFFFFF : ℕ) ≠ 0x1FFFFFF ∧
    (0xFFFFFF : ℕ) < 0xFF000000 ∧ (0x1FFFFFF : ℕ) < 0xFF000000 := by
  refine ⟨?_, by decide, by decide, by decide⟩
  have e1 : mask 0x00FF0000 (0xFFFFFF + 1) = mask 0x00FF0000 (0x1FFFFFF + 1) := by decide
  have e2 : mask 0x0000FF00 (0xFFFFFF + 1) = mask 0x0000FF00 (0x1FFFFFF + 1) := by decide
  have e3 : mask 0x000000FF (0xFFFFFF + 1) = mask 0x000000FF (0x1FFFFFF + 1) := by decide
  simp only [selection_color,
    if_pos (by norm_num : (0xFFFFFF : ℕ) < 0xFF000000),
    if_pos (by norm_num : (0x1FFFFFF : ℕ) < 0xFF000000), e1, e2, e3]

/-- C9 (amended): `selection_color` is injective on ids `i < 0xFFFFFF` (so that
`i + 1` fits in the 24 encoded bits) — and, for every id accepted by the
assertion `i < 0xFF000000`, every RGB channel of the produced color lies in
`[0, 1]`. -/
theorem c9_selection_color_spec :
    (∀ i j, i < 0xFFFFFF → j < 0xFFFFFF →
      selection_color i = selection_color j → i = j) ∧
    (∀ i c, selection_color i = some c →
      0 ≤ c.r ∧ c.r ≤ 1 ∧ 0 ≤ c.g ∧ c.g ≤ 1 ∧ 0 ≤ c.b ∧ c.b ≤ 1) := by
  constructor
  · intro i j hi hj heq
    simp only [selection_color,
      if_pos (show i < 0xFF000000 by omega),
      if_pos (show j < 0xFF000000 by omega),
      Option.some.injEq, Color4.mk.injEq] at heq
    obtain ⟨hr, hg, hb, -⟩ := heq
    rw [div_eq_div_iff (by norm_num) (by norm_num)] at hr hg hb
    have hr' : mask 0x00FF0000 (i + 1) = mask 0x00FF0000 (j + 1) := by
      exact_mod_cast mul_right_cancel₀ (b := (255 : ℚ)) (by norm_num) hr
    have hg' : mask 0x0000FF00 (i + 1) = mask 0x0000FF00 (j + 1) := by
      exact_mod_cast mul_right_cancel₀ (b := (255 : ℚ)) (by norm_num) hg
    have hb' : mask 0x000000FF (i + 1) = mask 0x000000FF (j + 1) := by
      exact_mod_cast mul_right_cancel₀ (b := (255 : ℚ)) (by norm_num) hb
    rw [mask_red, mask_red] at hr'
    rw [mask_green, mask_green] at hg'
    rw [mask_blue, mask_blue] at hb'
    omega
  · intro i c h
    simp only [selection_color] at h
    split_ifs at h with hi
    · injection h with h
      subst h
      have hmle : ∀ m : ℕ, m % 256 ≤ 255 := fun m => by omega
      simp only [mask_red, mask_green, mask_blue]
      refine ⟨by positivity, ?_, by positivity, ?_, by positivity, ?_⟩ <;>
      · rw [div_le_one (by norm_num)]
        exact_mod_cast hmle _

/-- Witness for C9 (amended): the colors of ids 5 and 6 are distinct ids' colors
with channels in `[0, 1]`; injectivity applied at `i = j = 5`. -/
theorem c9_selection_color_spec_witness :
    ((5 : ℕ) < 0xFFFFFF) ∧
    ((5 : ℕ) = 5) ∧
    (selection_color 5 = some ⟨(0 : ℚ) / 255, (0 : ℚ) / 255, (6 : ℚ) / 255, 1⟩ ∧
      (0 : ℚ) ≤ (6 : ℚ) / 255 ∧ (6 : ℚ) / 255 ≤ 1) := by
  have hsc : selection_color 5 = some ⟨(0 : ℚ) / 255, (0 : ℚ) / 255, (6 : ℚ) / 255, 1⟩ := by
    have e1 : mask 0x00FF0000 (5 + 1) = 0 := by decide
    have e2 : mask 0x0000FF00 (5 + 1) = 0 := by decide
    have e3 : mask 0x000000FF (5 + 1) = 6 := by decide
    simp only [selection_color, if_pos (by norm_num : (5 : ℕ) < 0xFF000000), e1, e2, e3]
    norm_num
  refine ⟨by decide, c9_selection_color_spec.1 5 5 (by decide) (by decide) rfl, hsc, ?_, ?_⟩
  · exact (c9_selection_color_spec.2 5 _ hsc).2.2.2.2.1
  · exact (c9_selection_color_spec.2 5 _ hsc).2.2.2.2.2

end Playform
